import Mathlib

/-!
Verification of the global meshing heap core (`src/globalmeshingheap.h`).

The C++ class `GlobalMeshingHeap` drives external collaborators (the
`MeshableArena`, the per-class `BinnedTracker`s, the `MiniHeap`s and the
big-object heap).  We embed the heap's own control flow faithfully:

* counters are C `size_t` values, modelled as `Nat` reduced `% 2 ^ 64`
  at every mutation;
* external collaborator calls (arena `mesh`/`free`/`assoc`, tracker
  `postFree`/`flushFreeMiniheaps`, stop-the-world) are recorded as data in
  each operation's result, or supplied as inputs where the source reads
  their answers (e.g. `selectForReuse`, the candidate pairs offered by
  `simpleGreedySplitting`);
* the PRNG is a supply of raw draws threaded through the state.
-/

namespace MeshVerify

/-- Modulus of C `size_t` arithmetic (the source targets 64-bit). -/
def wordMod : Nat := 2 ^ 64

/-- Wrapping 64-bit addition: on in-range (`< 2 ^ 64`) operands this is
exactly `(x + y) % 2 ^ 64` (lemma `add64_eq_mod`); written in guarded
form so that it reduces well. -/
def add64 (x y : Nat) : Nat := if x + y < wordMod then x + y else x + y - wordMod

/-- Wrapping 64-bit decrement: on an in-range operand this is exactly
`(x + (2 ^ 64 - 1)) % 2 ^ 64` (lemma `dec64_eq_mod`). -/
def dec64 (x : Nat) : Nat := if x = 0 then wordMod - 1 else x - 1

/-- Model of the external `MiniHeap` collaborator.
Modelled from the spec: the miniheap representation lives outside
`src/`; per spec section 3 it owns a list of equal-length spans, a mesh
count (number of spans), an object size and count, an atomic reference
count, an attached bit and a meshing-candidate predicate.  The slot
bitmap itself is not needed by any claim about the global heap. -/
structure MiniHeap where
  meshCount : Nat
  spans : List Nat
  spanSize : Nat
  objectSize : Nat
  objectCount : Nat
  refCount : Nat
  attached : Bool
  meshingCandidate : Bool
deriving DecidableEq, Repr

/-- The `GlobalHeapStats` block: four `size_t` counters (source lines 25-32). -/
structure GlobalHeapStats where
  meshCount : Nat
  mhFreeCount : Nat
  mhAllocCount : Nat
  mhHighWaterMark : Nat
deriving DecidableEq, Repr

/-- The mutable scalar state of `GlobalMeshingHeap` that the claims are
about: `_meshPeriod`, `_nextMeshCheck`, `_stats`, and the PRNG modelled
as a supply of raw draws. -/
structure GlobalHeapState where
  meshPeriod : Nat
  nextMeshCheck : Nat
  prng : List Nat
  stats : GlobalHeapStats
deriving DecidableEq, Repr

/-- `untrackMiniheapLocked` (lines 169-172): decrements `_stats.mhAllocCount`
(a `size_t`, so the decrement wraps at zero) and removes the heap from its
tracker (an external tracker effect). -/
def untrackMiniheapLocked (st : GlobalHeapState) : GlobalHeapState :=
  { st with stats :=
    { st.stats with mhAllocCount := dec64 st.stats.mhAllocCount } }

/-- `resetNextMeshCheck` (lines 359-366): a period of 0 means do not mesh;
otherwise reseed `_nextMeshCheck` uniformly in `[1, _meshPeriod]` from the
PRNG.  The uniform draw is modelled as `1 + raw % _meshPeriod` on the next
raw PRNG value. -/
def resetNextMeshCheck (st : GlobalHeapState) : GlobalHeapState :=
  if st.meshPeriod = 0 then st
  else { st with
    nextMeshCheck := 1 + st.prng.headD 0 % st.meshPeriod,
    prng := st.prng.tail }

/-- `shouldMesh` (lines 368-375): decrement `_nextMeshCheck` (unsigned, so
it wraps below zero), fire iff `_meshPeriod > 0 && _nextMeshCheck == 0`,
and reseed on fire. -/
def shouldMesh (st : GlobalHeapState) : Bool × GlobalHeapState :=
  let next := dec64 st.nextMeshCheck
  let fired := decide (0 < st.meshPeriod) && decide (next = 0)
  let st1 := { st with nextMeshCheck := next }
  (fired, if fired then resetNextMeshCheck st1 else st1)

/-- `MiniHeap::ref()`: increment the reference count (atomic `size_t`). -/
def refOp (mh : MiniHeap) : MiniHeap :=
  { mh with refCount := add64 mh.refCount 1 }

/-- `MiniHeap::unref()`: decrement the reference count (atomic `size_t`). -/
def unref (mh : MiniHeap) : MiniHeap :=
  { mh with refCount := dec64 mh.refCount }

/-- `miniheapFor` (lines 155-163): look the pointer up in the arena
(`Super::lookup`, external - its answer is the argument) and, on a hit,
increment the miniheap's reference count. -/
def miniheapFor (lookup : Option MiniHeap) : Option MiniHeap :=
  lookup.map refOp

/-- Classification of a pointer as the source observes it: null, inside a
span owned by a miniheap (with the size the owning miniheap reports for
it), or outside every span (with the size the big heap reports). -/
inductive Ptr where
  | null : Ptr
  | inSpan (mh : MiniHeap) (mhSize : Nat) : Ptr
  | outside (bigSize : Nat) : Ptr
deriving DecidableEq, Repr

/-- `getSize` (lines 252-265): 0 on null; on a miniheap hit return the
owning miniheap's size for the pointer and `unref` the heap that
`miniheapFor` just referenced (the final owner heap is returned as data);
otherwise delegate to the big heap. -/
def getSize (p : Ptr) : Nat × Option MiniHeap :=
  match p with
  | .null => (0, none)
  | .inSpan mh mhSize =>
    match miniheapFor (some mh) with
    | some mh1 => (mhSize, some (unref mh1))
    | none => (0, none)
  | .outside bigSize => (bigSize, none)

/-- Modelled from the spec: `MiniHeap::consume` lives outside `src/`;
per spec section 4.2 it merges `src`'s bitmap into `dst` and transfers
`src`'s span references to `dst`, so `dst.meshCount` grows by
`src.meshCount`; `src` itself is only read. -/
def consume (dst src : MiniHeap) : MiniHeap :=
  { dst with
    meshCount := dst.meshCount + src.meshCount,
    spans := dst.spans ++ src.spans }

/-- Result of `meshLocked`: the destination heap, the source heap
(`none` once destroyed - the source sets the caller's pointer to null),
the heap state, and the arena `Super::mesh(dstSpanStart, srcSpan,
dstSpanSize)` calls issued. -/
structure MeshLockedResult where
  dst : MiniHeap
  src : Option MiniHeap
  state : GlobalHeapState
  meshCalls : List (Nat × Nat × Nat)
deriving DecidableEq, Repr

/-- `meshLocked` (lines 335-356): refuse if the combined mesh count
exceeds `MaxMeshes` (an external constant, passed as `maxMeshes`);
otherwise `consume`, issue one arena `mesh` call per source span, notify
the tracker (`postFree(dst)`, external), destroy `src` via
`freeMiniheapAfterMeshLocked` (which untracks, decrementing
`mhAllocCount`) and null the caller's pointer. -/
def meshLocked (maxMeshes : Nat) (st : GlobalHeapState) (dst src : MiniHeap) :
    MeshLockedResult :=
  if dst.meshCount + src.meshCount > maxMeshes then
    ⟨dst, some src, st, []⟩
  else
    let dst2 := consume dst src
    let dstSpanStart := dst2.spans.headD 0
    let calls := (List.range src.meshCount).map
      (fun i => (dstSpanStart, src.spans.getD i 0, dst2.spanSize))
    ⟨dst2, none, untrackMiniheapLocked st, calls⟩

/-- The candidate sink `meshFound` installed by `meshAllSizeClasses`
(lines 402-407): a pair is pushed onto `args.mergeSets` iff
`get<0>(miniheaps)->isMeshingCandidate() &&
get<0>(miniheaps)->isMeshingCandidate()` - the source tests the FIRST
component twice and never inspects the second. -/
def sinkAccepts (p : MiniHeap × MiniHeap) : Bool :=
  p.1.meshingCandidate && p.1.meshingCandidate

/-- The candidate sink installed by the sibling `meshSizeClass`
(lines 434-439), which does test both members:
`miniheaps[0]->isMeshingCandidate() && miniheaps[1]->isMeshingCandidate()`. -/
def meshSizeClassSinkAccepts (p : MiniHeap × MiniHeap) : Bool :=
  p.1.meshingCandidate && p.2.meshingCandidate

/-- One iteration of `performMeshing` (lines 377-387): reorder the pair so
the first element has the larger mesh count, then `meshLocked` it.
Only the heap-state effect is threaded here. -/
def performMeshingStep (maxMeshes : Nat) (st : GlobalHeapState)
    (p : MiniHeap × MiniHeap) : GlobalHeapState :=
  let q := if p.1.meshCount < p.2.meshCount then (p.2, p.1) else p
  (meshLocked maxMeshes st q.1 q.2).state

/-- Result of a `meshAllSizeClasses` pass: final state, the enqueued
merge sets, and whether the stop-the-world primitive was invoked. -/
structure MeshPassResult where
  state : GlobalHeapState
  mergeSets : List (MiniHeap × MiniHeap)
  stoppedWorld : Bool
deriving DecidableEq, Repr

/-- `meshAllSizeClasses` (lines 390-424): flush free miniheaps per bin
(external tracker effect), filter the candidate pairs offered by
`simpleGreedySplitting` (external; its offers over all bins are the
`offers` argument) through the `meshFound` sink, return if the queue is
empty, otherwise add the queue size to `_stats.meshCount` and run
`performMeshing` under stop-the-world. -/
def meshAllSizeClasses (maxMeshes : Nat) (st : GlobalHeapState)
    (offers : List (MiniHeap × MiniHeap)) : MeshPassResult :=
  let mergeSets := offers.filter sinkAccepts
  if mergeSets.length = 0 then
    ⟨st, [], false⟩
  else
    let st2 := { st with stats :=
      { st.stats with meshCount := add64 st.stats.meshCount mergeSets.length } }
    ⟨mergeSets.foldl (performMeshingStep maxMeshes) st2, mergeSets, true⟩

/-- `freeMiniheapAfterMeshLocked` (lines 175-184): optionally untrack
(decrementing `mhAllocCount`), then destroy and poison the miniheap
object (external memory effects). -/
def freeMiniheapAfterMeshLocked (st : GlobalHeapState) (untrack : Bool) :
    GlobalHeapState :=
  if untrack then untrackMiniheapLocked st else st

/-- Result of `freeMiniheap`: the heap state and the arena
`Super::free(span, spanSize)` calls issued, one per meshed span. -/
structure FreeMiniheapResult where
  state : GlobalHeapState
  spanFrees : List (Nat × Nat)
deriving DecidableEq, Repr

/-- `freeMiniheap` (lines 186-201): return every span of the miniheap to
the arena, increment `_stats.mhFreeCount`, then
`freeMiniheapAfterMeshLocked` (untracking by default). -/
def freeMiniheap (st : GlobalHeapState) (mh : MiniHeap) (untrack : Bool) :
    FreeMiniheapResult :=
  let spanFrees := (List.range mh.meshCount).map (fun i => (mh.spans.getD i 0, mh.spanSize))
  let st2 := { st with stats :=
    { st.stats with mhFreeCount := add64 st.stats.mhFreeCount 1 } }
  ⟨freeMiniheapAfterMeshLocked st2 untrack, spanFrees⟩

/-- What `free` learns about its pointer: a `miniheapFor` miss (big
allocation), or a hit together with what the external miniheap and
tracker answer afterwards - whether the heap is empty once the slot is
freed (`mh->isEmpty()`) and whether `postFree` advises a flush. -/
inductive PtrClass where
  | big : PtrClass
  | small (emptyAfterFree : Bool) (flushAdvised : Bool) : PtrClass
deriving DecidableEq, Repr

/-- Result of `free`: the heap state and the observable effects - whether
the big heap freed the pointer, whether `flushFreeMiniheaps` ran, whether
the meshing trigger fired, and whether a meshing pass
(`meshAllSizeClasses`) was invoked. -/
structure FreeResult where
  state : GlobalHeapState
  bigFreed : Bool
  flushed : Bool
  triggerFired : Bool
  meshPassInvoked : Bool
deriving DecidableEq, Repr

/-- `free` (lines 203-250): route a `miniheapFor` miss to the big heap;
otherwise free the slot on the miniheap (external), record whether the
heap is still non-empty, run `postFree` / flush, and - if the heap is
still non-empty - evaluate `shouldMesh()`.  The calls to
`meshAllSizeClasses` / `meshSizeClass` inside the trigger branch are
commented out in the source (lines 246-249), so no meshing pass is ever
invoked here. -/
def free (st : GlobalHeapState) (p : PtrClass) : FreeResult :=
  match p with
  | .big => ⟨st, true, false, false, false⟩
  | .small emptyAfterFree flushAdvised =>
    if emptyAfterFree then
      ⟨st, false, flushAdvised, false, false⟩
    else
      let r := shouldMesh st
      ⟨r.2, false, flushAdvised, r.1, false⟩

/-- Modelled from the spec: `PageCount` (from `internal.h`, which is not
under `src/`) - the number of pages covering a byte count, i.e.
`ceil(bytes / pageSize)`. -/
def PageCount (bytes pageSize : Nat) : Nat :=
  (bytes + pageSize - 1) / pageSize

/-- Modelled from the spec: the external `MiniHeap` constructor
`MiniHeap(span, nObjects, sizeMax, prng, fastPrng, spanSize)` - a fresh,
attached, unmeshed heap over the single span. -/
def mkMiniHeap (span nObjects sizeMax spanSize : Nat) : MiniHeap :=
  { meshCount := 1, spans := [span], spanSize := spanSize, objectSize := sizeMax,
    objectCount := nObjects, refCount := 0, attached := true, meshingCandidate := false }

/-- Modelled from the spec: `MiniHeap::reattach` (outside `src/`)
repopulates the freelist and sets the attached bit. -/
def reattach (mh : MiniHeap) : MiniHeap :=
  { mh with attached := true }

/-- Result of `allocMiniheap`: the heap state, the returned miniheap,
whether a tracked heap was reused, and the creation-path observables -
span geometry, the arena `Super::assoc(span, mh, nPages)` association and
the size class the new heap was added to (`none` on the reuse path). -/
structure AllocMiniheapResult where
  state : GlobalHeapState
  mh : MiniHeap
  reused : Bool
  nPages : Nat
  spanSize : Nat
  assoc : Option (Nat × Nat)
  trackedClass : Option Nat
deriving DecidableEq, Repr

/-- `allocMiniheap` (lines 90-141): reuse a heap from the tracker when
`selectForReuse` (external; its answer is the `reuse` argument) finds
one, reattaching it; otherwise choose
`nObjects = max(pageSize / sizeMax, MinStringLen)`, obtain a span of
`nPages = PageCount(sizeMax * nObjects)` pages from the arena (the span's
identity is the `spanId` argument), construct a miniheap over it,
associate span and heap in the arena, track it, and increment
`_stats.mhAllocCount`. -/
def allocMiniheap (pageSize minStringLen : Nat) (getSizeClass : Nat → Nat)
    (getClassMaxSize : Nat → Nat) (st : GlobalHeapState) (objectSize : Nat)
    (reuse : Option MiniHeap) (spanId : Nat) : AllocMiniheapResult :=
  let sizeClass := getSizeClass objectSize
  let sizeMax := getClassMaxSize sizeClass
  match reuse with
  | some existing => ⟨st, reattach existing, true, 0, 0, none, none⟩
  | none =>
    let nObjects := max (pageSize / sizeMax) minStringLen
    let nPages := PageCount (sizeMax * nObjects) pageSize
    let spanSize := pageSize * nPages
    let mh := mkMiniHeap spanId nObjects sizeMax spanSize
    ⟨{ st with stats :=
        { st.stats with mhAllocCount := add64 st.stats.mhAllocCount 1 } },
      mh, false, nPages, spanSize, some (spanId, nPages), some sizeClass⟩

/-- Outcome of `GlobalHeap::malloc`: either the process aborts, or the
request is routed to the big heap (under the big-heap mutex). -/
inductive MallocResult where
  | aborted : MallocResult
  | bigAlloc (sz : Nat) : MallocResult
deriving DecidableEq, Repr

/-- `malloc` (lines 143-152): compute the class maximum for the request;
if it is at most `_maxObjectSize` the process aborts, otherwise the
request goes to `_bigheap.malloc` under `_bigMutex`. -/
def malloc (getSizeClass : Nat → Nat) (getClassMaxSize : Nat → Nat)
    (maxObjectSize : Nat) (sz : Nat) : MallocResult :=
  if getClassMaxSize (getSizeClass sz) ≤ maxObjectSize then .aborted
  else .bigAlloc sz

/-- The `mallctl` output-buffer check (line 270):
`!oldp || !oldlenp || *oldlenp < sizeof(size_t)`.  The `oldp` flag is the
presence of the output buffer; `oldlenp` carries `*oldlenp` when the
length pointer is present. -/
def badOldBuf (oldp : Bool) (oldlenp : Option Nat) : Bool :=
  !oldp || oldlenp.isNone || decide (oldlenp.getD 0 < 8)

/-- The `mallctl` input check for `mesh.check_period` (line 277):
`!newp || newlen < sizeof(size_t)`.  `newp` carries `*newp` when the
input buffer is present. -/
def badNewBuf (newp : Option Nat) (newlen : Nat) : Bool :=
  newp.isNone || decide (newlen < 8)

/-- Per-class tracker figures read by the `stats.*` branches of
`mallctl`: `nonEmptyCount`, `objectSize`, `objectCount`,
`allocatedObjectCount` (external `BinnedTracker` inspection). -/
structure BinStats where
  nonEmptyCount : Nat
  objectSize : Nat
  objectCount : Nat
  allocatedObjectCount : Nat
deriving DecidableEq, Repr

/-- The `stats.active` sum (lines 293-302): big-heap arena bytes plus,
for each bin with a non-empty miniheap, `count * objectSize * objectCount`. -/
def statsActive (arenaSize : Nat) (bins : List BinStats) : Nat :=
  bins.foldl
    (fun sz b => if b.nonEmptyCount = 0 then sz
      else sz + b.nonEmptyCount * b.objectSize * b.objectCount)
    arenaSize

/-- The `stats.allocated` sum (lines 303-314): big-heap arena bytes plus,
for each bin with a non-empty miniheap, `objectSize * allocatedObjectCount`. -/
def statsAllocated (arenaSize : Nat) (bins : List BinStats) : Nat :=
  bins.foldl
    (fun sz b => if b.nonEmptyCount = 0 then sz
      else sz + b.objectSize * b.allocatedObjectCount)
    arenaSize

/-- The external readings `mallctl` consults: the measured PSS
(`internal::measurePssKiB`), the big heap's arena size, the per-bin
tracker figures, the `MaxMeshes` constant and the candidate pairs a
`mesh.compact`-triggered pass would be offered. -/
structure MallctlEnv where
  pssKiB : Nat
  arenaSize : Nat
  bins : List BinStats
  maxMeshes : Nat
  offers : List (MiniHeap × MiniHeap)
deriving DecidableEq, Repr

/-- Result of `mallctl`: the return code, the heap state, the value
written to `*oldp` (if any), and whether a stop-the-world pass ran. -/
structure MallctlResult where
  ret : Int
  state : GlobalHeapState
  out : Option Nat
  stoppedWorld : Bool
deriving DecidableEq, Repr

/-- `mallctl` (lines 267-316): fail with -1 on a missing or short output
buffer; `mesh.check_period` writes the current period to the output and
then fails with -1 when the input is missing or short, otherwise installs
the new period and reseeds; `mesh.compact` runs `meshAllSizeClasses`;
`arena` is accepted and ignored; the `stats.*` names write their
readings; every other name falls through all comparisons and returns 0. -/
def mallctl (env : MallctlEnv) (st : GlobalHeapState) (name : String)
    (oldp : Bool) (oldlenp : Option Nat) (newp : Option Nat) (newlen : Nat) :
    MallctlResult :=
  if badOldBuf oldp oldlenp then ⟨-1, st, none, false⟩
  else if name = "mesh.check_period" then
    if badNewBuf newp newlen then ⟨-1, st, some st.meshPeriod, false⟩
    else ⟨0, resetNextMeshCheck { st with meshPeriod := newp.getD 0 },
      some st.meshPeriod, false⟩
  else if name = "mesh.compact" then
    ⟨0, (meshAllSizeClasses env.maxMeshes st env.offers).state, none,
      (meshAllSizeClasses env.maxMeshes st env.offers).stoppedWorld⟩
  else if name = "arena" then ⟨0, st, none, false⟩
  else if name = "stats.resident" then ⟨0, st, some (env.pssKiB * 1024), false⟩
  else if name = "stats.active" then ⟨0, st, some (statsActive env.arenaSize env.bins), false⟩
  else if name = "stats.allocated" then
    ⟨0, st, some (statsAllocated env.arenaSize env.bins), false⟩
  else ⟨0, st, none, false⟩

/-! Concrete sample values used by witnesses and counterexamples. -/

/-- A concrete miniheap that is a meshing candidate. -/
def mhCand : MiniHeap :=
  { meshCount := 1, spans := [100], spanSize := 4096, objectSize := 16,
    objectCount := 256, refCount := 0, attached := false, meshingCandidate := true }

/-- A concrete miniheap that is not a meshing candidate (attached). -/
def mhNonCand : MiniHeap :=
  { meshCount := 1, spans := [200], spanSize := 4096, objectSize := 16,
    objectCount := 256, refCount := 0, attached := true, meshingCandidate := false }

/-- A concrete miniheap three spans deep in mesh ancestry. -/
def mhDeep : MiniHeap :=
  { meshCount := 3, spans := [300, 301, 302], spanSize := 4096, objectSize := 16,
    objectCount := 256, refCount := 0, attached := false, meshingCandidate := true }

/-- A concrete heap state. -/
def st0 : GlobalHeapState :=
  { meshPeriod := 4, nextMeshCheck := 2, prng := [7, 3],
    stats := { meshCount := 0, mhFreeCount := 0, mhAllocCount := 5, mhHighWaterMark := 0 } }

/-- A concrete state with scheduler period 1 and a reseeded countdown
(with period 1 the uniform draw on `[1, 1]` is always 1). -/
def stPeriodOne : GlobalHeapState :=
  { meshPeriod := 1, nextMeshCheck := 1, prng := [0],
    stats := { meshCount := 0, mhFreeCount := 0, mhAllocCount := 5, mhHighWaterMark := 0 } }

/-- A concrete state with the scheduler disabled and an exhausted
countdown, so the next decrement wraps below zero. -/
def stPeriodZero : GlobalHeapState :=
  { meshPeriod := 0, nextMeshCheck := 0, prng := [],
    stats := { meshCount := 0, mhFreeCount := 0, mhAllocCount := 5, mhHighWaterMark := 0 } }

/-- A concrete environment for `mallctl`. -/
def env0 : MallctlEnv :=
  { pssKiB := 10, arenaSize := 4096, bins := [], maxMeshes := 4, offers := [] }

/-! Shared helper lemmas. -/

/-- On in-range operands `add64` is 64-bit modular addition. -/
theorem add64_eq_mod (x y : Nat) (hx : x < wordMod) (hy : y < wordMod) :
    add64 x y = (x + y) % wordMod := by
  unfold add64
  split
  · exact (Nat.mod_eq_of_lt (by assumption)).symm
  · simp only [wordMod] at *
    omega

/-- On an in-range operand `dec64` is the 64-bit unsigned decrement. -/
theorem dec64_eq_mod (x : Nat) (hx : x < wordMod) :
    dec64 x = (x + (wordMod - 1)) % wordMod := by
  unfold dec64
  split <;> (simp only [wordMod] at *; omega)

/-- A 64-bit decrement of a positive value is an ordinary decrement. -/
theorem dec64_of_pos (c : Nat) (h0 : 0 < c) : dec64 c = c - 1 := by
  unfold dec64
  split <;> omega

/-- A 64-bit increment then decrement is the identity below the cap. -/
theorem dec64_add64_one (c : Nat) (hW : c + 1 < wordMod) : dec64 (add64 c 1) = c := by
  unfold add64
  rw [if_pos hW]
  exact dec64_of_pos _ (by omega)

/-- A 64-bit increment is an ordinary increment below the cap. -/
theorem add64_one (c : Nat) (hW : c + 1 < wordMod) : add64 c 1 = c + 1 := by
  unfold add64
  rw [if_pos hW]

/-- A span of `PageCount bytes pageSize` pages covers `bytes` bytes. -/
theorem le_pageCount_mul (a p : Nat) (hp : 0 < p) : a ≤ PageCount a p * p := by
  by_contra hlt
  push_neg at hlt
  have h : PageCount a p + 1 ≤ (a + p - 1) / p := by
    rw [Nat.le_div_iff_mul_le hp]
    have hstep : PageCount a p * p + p ≤ a + p - 1 := by omega
    calc (PageCount a p + 1) * p = PageCount a p * p + p := by ring
      _ ≤ a + p - 1 := hstep
  simp only [PageCount] at h
  omega

/-- `meshLocked` never touches `_stats.meshCount`. -/
theorem meshLocked_state_meshCount (m : Nat) (st : GlobalHeapState) (dst src : MiniHeap) :
    (meshLocked m st dst src).state.stats.meshCount = st.stats.meshCount := by
  by_cases h : dst.meshCount + src.meshCount > m <;>
    simp [meshLocked, h, untrackMiniheapLocked]

/-- One `performMeshing` iteration never touches `_stats.meshCount`. -/
theorem performMeshingStep_meshCount (m : Nat) (st : GlobalHeapState)
    (p : MiniHeap × MiniHeap) :
    (performMeshingStep m st p).stats.meshCount = st.stats.meshCount := by
  by_cases h : p.1.meshCount < p.2.meshCount <;>
    simp [performMeshingStep, h, meshLocked_state_meshCount]

/-- The whole `performMeshing` loop never touches `_stats.meshCount`. -/
theorem foldl_performMeshingStep_meshCount (m : Nat)
    (l : List (MiniHeap × MiniHeap)) (st : GlobalHeapState) :
    (l.foldl (performMeshingStep m) st).stats.meshCount = st.stats.meshCount := by
  induction l generalizing st with
  | nil => rfl
  | cons p t ih => rw [List.foldl_cons, ih, performMeshingStep_meshCount]

/-- An in-range `unref` exactly cancels a `ref`. -/
theorem unref_refOp (mh : MiniHeap) (h : mh.refCount + 1 < wordMod) :
    unref (refOp mh) = mh := by
  cases mh with
  | mk a b c d e f g i =>
    have hf : f + 1 < wordMod := h
    simp only [refOp, unref, MiniHeap.mk.injEq]
    rw [add64_one _ hf, dec64_of_pos _ (Nat.succ_pos f)]
    simp

/-! Claim theorems. -/

/-- C1: the candidate sink installed by `meshAllSizeClasses` enqueues a
pair whose second member is not a meshing candidate - line 405 tests the
first member twice and never the second - while the sibling
`meshSizeClass` sink rejects the same pair; evaluated at an offered pair
(candidate, non-candidate). -/
theorem sink_enqueues_noncandidate_second :
    mhNonCand.meshingCandidate = false ∧
    sinkAccepts (mhCand, mhNonCand) = true ∧
    (meshAllSizeClasses 4 st0 [(mhCand, mhNonCand)]).mergeSets = [(mhCand, mhNonCand)] ∧
    meshSizeClassSinkAccepts (mhCand, mhNonCand) = false := by
  refine ⟨rfl, rfl, ?_, rfl⟩
  decide

/-- C3 counterexample: with `mesh.check_period = 1` and a freshly
reseeded countdown, a free of a still-non-empty small allocation fires
the meshing trigger, yet `free` does not invoke the meshing pass - the
`meshAllSizeClasses` call at line 247 is commented out. -/
theorem free_fires_trigger_without_pass :
    (free stPeriodOne (.small false false)).triggerFired = true ∧
    (free stPeriodOne (.small false false)).meshPassInvoked = false := by
  constructor <;> decide

/-- C3 amended: `free` never invokes `meshAllSizeClasses` (the invocation
is commented out in the source); the trigger itself still fires - with
`mesh.check_period = 1` and a reseeded countdown, every free of a
still-non-empty miniheap fires it. -/
theorem free_trigger_no_pass (st : GlobalHeapState) (p : PtrClass) :
    (free st p).meshPassInvoked = false ∧
    (st.meshPeriod = 1 → st.nextMeshCheck = 1 →
      ∀ flushAdvised, (free st (.small false flushAdvised)).triggerFired = true) := by
  constructor
  · cases p with
    | big => rfl
    | small e f => cases e <;> rfl
  · intro h1 h2 fa
    simp [free, shouldMesh, h2, dec64_of_pos, h1]

/-- C3 amended witness at a concrete state. -/
theorem free_trigger_no_pass_witness :
    (free stPeriodOne (.small false false)).meshPassInvoked = false ∧
    (free stPeriodOne (.small false false)).triggerFired = true :=
  ⟨(free_trigger_no_pass stPeriodOne (.small false false)).1,
   (free_trigger_no_pass stPeriodOne (.small false false)).2 rfl rfl false⟩

/-- C4 counterexample: `freeMiniheap` with `untrack = true` (via
`untrackMiniheapLocked`) decreases `_stats.mhAllocCount` from 5 to 4, so
the counter is not monotonic. -/
theorem mhAllocCount_decreases :
    st0.stats.mhAllocCount = 5 ∧
    (freeMiniheap st0 mhCand true).state.stats.mhAllocCount = 4 := by
  constructor <;> decide

/-- C4 amended: `mhAllocCount` is not monotonic - `untrackMiniheapLocked`
decrements it by one, and it is reached from `freeMiniheap` with
`untrack = true` and from every successful `meshLocked` merge, while the
creation path of `allocMiniheap` increments it by one. -/
theorem mhAllocCount_updates (st : GlobalHeapState) (mh dst src : MiniHeap)
    (maxMeshes : Nat) (h0 : 0 < st.stats.mhAllocCount)
    (hm : dst.meshCount + src.meshCount ≤ maxMeshes) :
    (untrackMiniheapLocked st).stats.mhAllocCount = st.stats.mhAllocCount - 1 ∧
    (freeMiniheap st mh true).state.stats.mhAllocCount = st.stats.mhAllocCount - 1 ∧
    (meshLocked maxMeshes st dst src).state.stats.mhAllocCount = st.stats.mhAllocCount - 1 := by
  have hu : (untrackMiniheapLocked st).stats.mhAllocCount = st.stats.mhAllocCount - 1 := by
    simp [untrackMiniheapLocked, dec64_of_pos _ h0]
  refine ⟨hu, ?_, ?_⟩
  · simp [freeMiniheap, freeMiniheapAfterMeshLocked, untrackMiniheapLocked,
      dec64_of_pos _ h0]
  · have hng : ¬ (dst.meshCount + src.meshCount > maxMeshes) := by omega
    simp [meshLocked, hng, untrackMiniheapLocked, dec64_of_pos _ h0]

/-- C4 amended witness at concrete inputs. -/
theorem mhAllocCount_updates_witness :
    (untrackMiniheapLocked st0).stats.mhAllocCount = st0.stats.mhAllocCount - 1 ∧
    (freeMiniheap st0 mhCand true).state.stats.mhAllocCount = st0.stats.mhAllocCount - 1 ∧
    (meshLocked 4 st0 mhCand mhNonCand).state.stats.mhAllocCount = st0.stats.mhAllocCount - 1 :=
  mhAllocCount_updates st0 mhCand mhCand mhNonCand 4 (by decide) (by decide)

/-- C8: with `_meshPeriod = 0` meshing is disabled entirely: for every
countdown state (including the one whose unsigned decrement wraps),
`shouldMesh` returns false, and no call to `free` ever invokes the
meshing pass. -/
theorem meshPeriod_zero_disables (st : GlobalHeapState) (h : st.meshPeriod = 0) :
    (shouldMesh st).1 = false ∧ ∀ p, (free st p).meshPassInvoked = false := by
  constructor
  · simp [shouldMesh, h]
  · intro p
    cases p with
    | big => rfl
    | small e f => cases e <;> rfl

/-- C8 witness at a concrete disabled state whose countdown is zero, so
the decrement wraps. -/
theorem meshPeriod_zero_disables_witness :
    (shouldMesh stPeriodZero).1 = false ∧
    (free stPeriodZero (.small false false)).meshPassInvoked = false :=
  ⟨(meshPeriod_zero_disables stPeriodZero rfl).1,
   (meshPeriod_zero_disables stPeriodZero rfl).2 (.small false false)⟩

/-- C9: `getSize` returns 0 on a null pointer; for a pointer owned by a
miniheap it returns the owning miniheap's size for the pointer and leaves
the reference count unchanged overall (the `unref` cancels the ref taken
by `miniheapFor`); for a pointer outside every span it returns the big
heap's reported size. -/
theorem getSize_spec :
    getSize .null = (0, none) ∧
    (∀ (mh : MiniHeap) (mhSize : Nat), mh.refCount + 1 < wordMod →
      getSize (.inSpan mh mhSize) = (mhSize, some mh)) ∧
    (∀ bigSize, getSize (.outside bigSize) = (bigSize, none)) := by
  refine ⟨rfl, ?_, fun _ => rfl⟩
  intro mh mhSize h
  show (mhSize, some (unref (refOp mh))) = (mhSize, some mh)
  rw [unref_refOp mh h]

/-- C9 witness at a concrete owned pointer. -/
theorem getSize_spec_witness :
    getSize (.inSpan mhCand 16) = (16, some mhCand) :=
  getSize_spec.2.1 mhCand 16 (by decide)

/-- C10: every request whose size class maximum is at most
`_maxObjectSize` makes `GlobalHeap::malloc` abort the process; only
requests whose class maximum exceeds `_maxObjectSize` are routed to the
big heap. -/
theorem malloc_small_aborts (getSizeClass getClassMaxSize : Nat → Nat)
    (maxObjectSize sz : Nat) :
    (getClassMaxSize (getSizeClass sz) ≤ maxObjectSize →
      malloc getSizeClass getClassMaxSize maxObjectSize sz = .aborted) ∧
    (maxObjectSize < getClassMaxSize (getSizeClass sz) →
      malloc getSizeClass getClassMaxSize maxObjectSize sz = .bigAlloc sz) := by
  constructor
  · intro h
    simp [malloc, h]
  · intro h
    simp [malloc, Nat.not_le.mpr h]

/-- C10 witness: a 16-byte request aborts under a 16 KiB class maximum; a
request whose class maximum exceeds it reaches the big heap. -/
theorem malloc_small_aborts_witness :
    malloc (fun _ => 0) (fun _ => 16) 16384 16 = .aborted ∧
    malloc (fun _ => 0) (fun _ => 32768) 16384 20000 = .bigAlloc 20000 :=
  ⟨(malloc_small_aborts (fun _ => 0) (fun _ => 16) 16384 16).1 (by decide),
   (malloc_small_aborts (fun _ => 0) (fun _ => 32768) 16384 20000).2 (by decide)⟩

/-- C5: `meshLocked` refuses the merge as a complete no-op whenever the
combined mesh count exceeds `MaxMeshes` - no consume, no arena mesh
calls, no destruction of `src`, both heaps and the state intact with
their mesh counts unchanged - and otherwise the merge proceeds: `src` is
consumed into `dst`, one arena mesh call per source span is issued, and
`src` is destroyed (untracking it). -/
theorem meshLocked_guard (maxMeshes : Nat) (st : GlobalHeapState) (dst src : MiniHeap) :
    (dst.meshCount + src.meshCount > maxMeshes →
      meshLocked maxMeshes st dst src = ⟨dst, some src, st, []⟩) ∧
    (dst.meshCount + src.meshCount ≤ maxMeshes →
      (meshLocked maxMeshes st dst src).dst = consume dst src ∧
      (meshLocked maxMeshes st dst src).src = none ∧
      (meshLocked maxMeshes st dst src).meshCalls.length = src.meshCount ∧
      (meshLocked maxMeshes st dst src).state = untrackMiniheapLocked st) := by
  constructor
  · intro h
    simp [meshLocked, h]
  · intro h
    have hng : ¬ (dst.meshCount + src.meshCount > maxMeshes) := by omega
    simp [meshLocked, hng]

/-- C5 witness: a refused merge (combined mesh count 6 over the cap 4)
and an accepted one (combined mesh count 2). -/
theorem meshLocked_guard_witness :
    meshLocked 4 st0 mhDeep mhDeep = ⟨mhDeep, some mhDeep, st0, []⟩ ∧
    ((meshLocked 4 st0 mhCand mhNonCand).dst = consume mhCand mhNonCand ∧
     (meshLocked 4 st0 mhCand mhNonCand).src = none ∧
     (meshLocked 4 st0 mhCand mhNonCand).meshCalls.length = mhNonCand.meshCount ∧
     (meshLocked 4 st0 mhCand mhNonCand).state = untrackMiniheapLocked st0) :=
  ⟨(meshLocked_guard 4 st0 mhDeep mhDeep).1 (by decide),
   (meshLocked_guard 4 st0 mhCand mhNonCand).2 (by decide)⟩

/-- C6: if, after filtering the offered pairs through the sink, the
candidate queue is empty, `meshAllSizeClasses` returns without invoking
the stop-the-world primitive and with `_stats.meshCount` unchanged;
otherwise it adds exactly the queue size to `_stats.meshCount` (the
stop-the-world merges touch other counters only). -/
theorem meshAllSizeClasses_queue (maxMeshes : Nat) (st : GlobalHeapState)
    (offers : List (MiniHeap × MiniHeap)) :
    (offers.filter sinkAccepts = [] →
      meshAllSizeClasses maxMeshes st offers = ⟨st, [], false⟩) ∧
    (offers.filter sinkAccepts ≠ [] →
      (meshAllSizeClasses maxMeshes st offers).stoppedWorld = true ∧
      (meshAllSizeClasses maxMeshes st offers).state.stats.meshCount =
        add64 st.stats.meshCount (offers.filter sinkAccepts).length) := by
  constructor
  · intro h
    simp [meshAllSizeClasses, h]
  · intro h
    have hl : ¬ ((offers.filter sinkAccepts).length = 0) := by
      simpa [List.length_eq_zero] using h
    constructor
    · simp [meshAllSizeClasses, hl]
    · simp only [meshAllSizeClasses, if_neg hl]
      rw [foldl_performMeshingStep_meshCount]

/-- C6 witness: an all-rejected offer list (no stop-the-world, counter
unchanged) and a one-pair queue (counter advanced by one under
stop-the-world). -/
theorem meshAllSizeClasses_queue_witness :
    meshAllSizeClasses 4 st0 [(mhNonCand, mhCand)] = ⟨st0, [], false⟩ ∧
    ((meshAllSizeClasses 4 st0 [(mhCand, mhCand)]).stoppedWorld = true ∧
     (meshAllSizeClasses 4 st0 [(mhCand, mhCand)]).state.stats.meshCount =
       add64 st0.stats.meshCount ([(mhCand, mhCand)].filter sinkAccepts).length) :=
  ⟨(meshAllSizeClasses_queue 4 st0 [(mhNonCand, mhCand)]).1 (by decide),
   (meshAllSizeClasses_queue 4 st0 [(mhCand, mhCand)]).2 (by decide)⟩

/-- C7: on the creation path (`selectForReuse` returned null)
`allocMiniheap` chooses `nObjects = max(pageSize / sizeMax,
MinStringLen)`, obtains from the arena a span covering
`nPages = ceil(sizeMax * nObjects / pageSize)` pages, constructs a new
miniheap over that span, associates the span with the miniheap in the
arena, adds it to the class's tracker, returns it, and increments
`mhAllocCount` by exactly one. -/
theorem allocMiniheap_creation (pageSize minStringLen : Nat)
    (getSizeClass getClassMaxSize : Nat → Nat) (st : GlobalHeapState)
    (objectSize spanId sizeMax nObjects nPages : Nat)
    (hsz : sizeMax = getClassMaxSize (getSizeClass objectSize))
    (hobj : nObjects = max (pageSize / sizeMax) minStringLen)
    (hpg : nPages = PageCount (sizeMax * nObjects) pageSize)
    (hp : 0 < pageSize) (hW : st.stats.mhAllocCount + 1 < wordMod) :
    allocMiniheap pageSize minStringLen getSizeClass getClassMaxSize st objectSize none spanId =
      ⟨{ st with stats := { st.stats with mhAllocCount := st.stats.mhAllocCount + 1 } },
        mkMiniHeap spanId nObjects sizeMax (pageSize * nPages), false, nPages,
        pageSize * nPages, some (spanId, nPages), some (getSizeClass objectSize)⟩ ∧
    sizeMax * nObjects ≤ nPages * pageSize := by
  subst hsz
  subst hobj
  subst hpg
  constructor
  · simp only [allocMiniheap, add64_one _ hW]
  · rw [Nat.mul_comm]
    exact Nat.le_trans (le_pageCount_mul _ _ hp) (Nat.le_of_eq rfl)

/-- C7 witness: a 16-byte class on 4 KiB pages with `MinStringLen = 8`
gives 256 objects on a single page. -/
theorem allocMiniheap_creation_witness :
    allocMiniheap 4096 8 (fun _ => 0) (fun _ => 16) st0 16 none 42 =
      ⟨{ st0 with stats := { st0.stats with mhAllocCount := st0.stats.mhAllocCount + 1 } },
        mkMiniHeap 42 256 16 (4096 * 1), false, 1, 4096 * 1, some (42, 1), some 0⟩ ∧
    16 * 256 ≤ 1 * 4096 :=
  allocMiniheap_creation 4096 8 (fun _ => 0) (fun _ => 16) st0 16 42 16 256 1
    rfl (by decide) (by decide) (by decide) (by decide)

/-- C2 counterexample: a write attempt to an unknown name with valid
buffers returns 0, not -1 - an unknown name falls through every string
comparison to the final `return 0`. -/
theorem mallctl_unknown_write_returns_zero :
    (mallctl env0 st0 "unknown.name" true (some 8) (some 5) 8).ret = 0 ∧
    (mallctl env0 st0 "unknown.name" true (some 8) (some 5) 8).state = st0 := by
  constructor <;> decide

/-- C2 amended: `mallctl` returns 0 or -1, and returns -1 exactly when
the output buffer is missing or too short, or when a `mesh.check_period`
write lacks a sufficient input buffer; unknown names (including unknown
write targets) are accepted with return 0; on every -1 return the heap
state is unchanged. -/
theorem mallctl_err_spec (env : MallctlEnv) (st : GlobalHeapState) (name : String)
    (oldp : Bool) (oldlenp : Option Nat) (newp : Option Nat) (newlen : Nat) :
    ((mallctl env st name oldp oldlenp newp newlen).ret = 0 ∨
     (mallctl env st name oldp oldlenp newp newlen).ret = -1) ∧
    ((mallctl env st name oldp oldlenp newp newlen).ret = -1 ↔
      (badOldBuf oldp oldlenp = true ∨
       (name = "mesh.check_period" ∧ badNewBuf newp newlen = true))) ∧
    ((mallctl env st name oldp oldlenp newp newlen).ret = -1 →
      (mallctl env st name oldp oldlenp newp newlen).state = st) := by
  unfold mallctl
  split_ifs with h1 h2 h3 h4 h5 h6 h7 h8 <;> simp_all

/-- C2 amended witness: a too-short output length and a missing input for
a `mesh.check_period` write both return -1 with the state unchanged. -/
theorem mallctl_err_spec_witness :
    (mallctl env0 st0 "stats.resident" true (some 4) none 0).state = st0 ∧
    (mallctl env0 st0 "mesh.check_period" true (some 8) none 0).state = st0 :=
  ⟨(mallctl_err_spec env0 st0 "stats.resident" true (some 4) none 0).2.2 (by decide),
   (mallctl_err_spec env0 st0 "mesh.check_period" true (some 8) none 0).2.2 (by decide)⟩

end MeshVerify
